import Mathlib

/-!
# Verification of `average_image_stack.py`

Shallow embedding of `compute_average_image` from
`src/python/average_image_stack.py` and proofs about it.

Modelling conventions:
* A decoded raster (`PIL` image after `convert("RGB")`) is an `RGBImage`:
  width, height and a flat row-major list of 8-bit samples
  (shape `(height, width, 3)` flattened, matching `np.array(rgb_img)`).
  Sample values live in `Nat`; real decoders only produce values `≤ 255`,
  which theorems assume where needed.
* The float64 accumulator `sum_array` only ever holds sums of 8-bit
  integer samples.  IEEE-754 double arithmetic is exact on integers of
  this magnitude (all partial sums are integers well below `2^53` for any
  directory a filesystem can hold), so the accumulator is modelled by the
  exact integer sum, and the final `sum / count` by exact rational
  division.
* The filesystem view of `input_folder` is an `FS`: the result of
  `os.path.isdir` plus the `os.listdir` entries (name, kind, and the
  decode outcome for the entry's bytes).  `PIL.Image.open` on anything
  that is not a decodable regular file raises, which the per-file
  `try/except` turns into an error-log entry; this is modelled by
  `DirEntry.decodeRGB` returning `none`.
* `rgb_img.resize(target, LANCZOS)` is an abstract parameter
  `resize : RGBImage → Nat × Nat → RGBImage`; claims never depend on the
  resampled pixel values.
* Writes are modelled as a list of `FsEffect`s on a writable filesystem.
  `os.makedirs(d, exist_ok=True)` succeeds for every non-empty `d` on a
  writable filesystem, but `os.makedirs("")` always raises
  `FileNotFoundError` (CPython calls `mkdir("")`, which fails with
  `ENOENT`), which is the `outputDirCreateFailed` outcome.
* Python string functions are re-implemented over the character lists of
  Lean strings (`str.lower`, `str.endswith`, lexicographic comparison for
  `sorted`), which agrees with CPython on the ASCII file names involved.
-/

/-- A decoded RGB raster: `width × height` pixels, 3 samples per pixel,
stored as the row-major flattening of the `(height, width, 3)` array. -/
structure RGBImage where
  width : Nat
  height : Nat
  samples : List Nat
deriving DecidableEq

/-- `PIL.Image.size` is the `(width, height)` pair. -/
def RGBImage.size (i : RGBImage) : Nat × Nat := (i.width, i.height)

/-- A raster is well-formed when its sample list has one entry per
pixel channel. -/
def RGBImage.wf (i : RGBImage) : Prop := i.samples.length = i.width * i.height * 3

/-- The kind of a directory entry returned by `os.listdir`. -/
inductive EntryKind where
  | regular
  | directory
  | other
deriving DecidableEq

/-- One entry of `os.listdir(input_folder)`: its name, its kind, and the
result of decoding its bytes as an image (`none` when
`Image.open(...).convert("RGB")` would raise). -/
structure DirEntry where
  name : String
  kind : EntryKind
  image : Option RGBImage
deriving DecidableEq

/-- `Image.open(path).convert("RGB")`: succeeds only on a regular file
with decodable image content; opening a directory or special file
raises. -/
def DirEntry.decodeRGB (e : DirEntry) : Option RGBImage :=
  match e.kind with
  | EntryKind.regular => e.image
  | _ => none

/-- The filesystem view of `input_folder`: the `os.path.isdir` answer and
the directory entries in `os.listdir` order. -/
structure FS where
  isdir : Bool
  entries : List DirEntry
deriving DecidableEq

/-- Code-point comparison of characters, as CPython compares `str`. -/
def charLe (a b : Char) : Bool := a.val ≤ b.val

/-- Lexicographic code-point order on character lists (Python `str` `<=`
restricted to what `sorted` needs). -/
def lexLe : List Char → List Char → Bool
  | [], _ => true
  | _ :: _, [] => false
  | a :: as, b :: bs => if a = b then lexLe as bs else charLe a b

/-- Python string comparison used by `sorted(file_list)`. -/
def strLe (a b : String) : Bool := lexLe a.data b.data

/-- Python `str.lower` (ASCII case folding, which covers the file names
and extensions involved). -/
def lowerStr (s : String) : String := ⟨s.data.map Char.toLower⟩

/-- Python `s.endswith(suffix)`. -/
def strEndsWith (s suffix : String) : Bool := suffix.data.isSuffixOf s.data

/-- `valid_extensions` from line 21 of the source. -/
def valid_extensions : List String := [".png", ".jpg", ".jpeg", ".tiff", ".bmp"]

/-- `f.lower().endswith(valid_extensions)` from line 23: a tuple argument
to `endswith` succeeds when any of its members is a suffix. -/
def matchesExtensions (f : String) : Bool :=
  valid_extensions.any (fun ext => strEndsWith (lowerStr f) ext)

/-- `file_list` from lines 22-24: names from `os.listdir` filtered by the
extension allow-list.  Note the code never checks `os.path.isfile`. -/
def file_list (fs : FS) : List String :=
  (fs.entries.map DirEntry.name).filter matchesExtensions

/-- Insert into a list sorted by `strLe`. -/
def insertSorted (n : String) : List String → List String
  | [] => [n]
  | m :: rest => if strLe n m then n :: m :: rest else m :: insertSorted n rest

/-- `sorted(file_list)`: ascending lexicographic order. -/
def sortNames : List String → List String
  | [] => []
  | n :: rest => insertSorted n (sortNames rest)

/-- The iteration order of the main loop (line 39). -/
def sorted_file_list (fs : FS) : List String := sortNames (file_list fs)

/-- Opening and decoding the file named `n` inside `input_folder`
(lines 40 and 44-46). -/
def decodeByName (fs : FS) (n : String) : Option RGBImage :=
  (fs.entries.find? (fun e => e.name == n)).bind DirEntry.decodeRGB

/-- The mutable state of the main loop (lines 32-36).  The error log keeps
the file names; the paired Python message `str(e)` is opaque here. -/
structure LoopState where
  sum_array : Option (List Nat)
  target_size : Option (Nat × Nat)
  count : Nat
  resize_count : Nat
  errors : List String
deriving DecidableEq

/-- Initial loop state (lines 32-36). -/
def initState : LoopState := ⟨none, none, 0, 0, []⟩

/-- `sum_array += np.array(rgb_img, dtype=np.float64)` (line 60):
element-wise addition of the flattened sample grids. -/
def addSamples (acc : List Nat) (i : RGBImage) : List Nat :=
  acc.zipWith (· + ·) i.samples

/-- One iteration of the loop body (lines 43-66) on the file named
`filename`: decode, set the target size and zero accumulator on the first
success (lines 49-52, `np.zeros` of shape `(height, width, 3)`), resize
when the size differs (lines 55-57), accumulate and count (lines 60-61),
or log the failure (lines 63-66). -/
def processFile (resize : RGBImage → Nat × Nat → RGBImage) (fs : FS)
    (st : LoopState) (filename : String) : LoopState :=
  match decodeByName fs filename with
  | none => { st with errors := st.errors ++ [filename] }
  | some rgb =>
    let target := st.target_size.getD rgb.size
    let sum0 := st.sum_array.getD (List.replicate (target.1 * target.2 * 3) 0)
    if rgb.size = target then
      ⟨some (addSamples sum0 rgb), some target, st.count + 1, st.resize_count, st.errors⟩
    else
      ⟨some (addSamples sum0 (resize rgb target)), some target, st.count + 1,
        st.resize_count + 1, st.errors⟩

/-- The whole main loop (lines 39-66). -/
def runLoop (resize : RGBImage → Nat × Nat → RGBImage) (fs : FS) : LoopState :=
  (sorted_file_list fs).foldl (processFile resize fs) initState

/-- `np.clip(x, 0, 255)` on one element. -/
def npClip0to255 (x : ℚ) : ℚ := min (max x 0) 255

/-- One element of `np.clip(sum_array / count, 0, 255).astype(np.uint8)`
(line 73): exact division, clip, then the C cast to `uint8`, which
truncates toward zero (floor on the non-negative clipped value) and wraps
modulo 256. -/
def avgSample (s count : Nat) : Nat :=
  (Int.floor (npClip0to255 ((s : ℚ) / (count : ℚ)))).toNat % 256

/-- The prefix of `p` up to and including its last `/`, or `[]` when `p`
has no separator. -/
def pathHead (p : String) : List Char :=
  (p.data.reverse.dropWhile (fun c => c != '/')).reverse

/-- `os.path.dirname` (POSIX): everything before the last `/`, with
trailing separators stripped unless the head is all separators. -/
def dirname (p : String) : String :=
  let head := pathHead p
  if head.isEmpty then ""
  else if head.all (fun c => c == '/') then ⟨head⟩
  else ⟨(head.reverse.dropWhile (fun c => c == '/')).reverse⟩

/-- The whole-run failures of `compute_average_image`: the three
`ValueError`s of lines 17-18, 26-27 and 69-70, plus the
`FileNotFoundError` that `os.makedirs(os.path.dirname(output_path),
exist_ok=True)` (line 76) raises when the dirname is empty. -/
inductive AvgError where
  | dirNotFound
  | noSupportedFiles
  | noValidImages
  | outputDirCreateFailed
deriving DecidableEq

/-- Observable filesystem writes of a run. -/
inductive FsEffect where
  | makedirs (dir : String)
  | writeImage (path : String) (img : RGBImage)
deriving DecidableEq

/-- The summary of a successful run (lines 89-101). -/
structure Report where
  count : Nat
  resize_count : Nat
  target_size : Nat × Nat
  errors : List String
deriving DecidableEq

/-- `compute_average_image(input_folder, output_path)` (lines 7-101).
`fs` is the filesystem view of `input_folder`; the returned pair is the
outcome (report or raised error) together with the filesystem writes
performed, in order.  Output encoding parameters (JPEG quality, PNG
optimisation, lines 79-87) do not change the written raster and are not
modelled; the write itself is assumed to succeed on a writable path. -/
def compute_average_image (resize : RGBImage → Nat × Nat → RGBImage)
    (fs : FS) (output_path : String) : Except AvgError Report × List FsEffect :=
  if fs.isdir = false then (Except.error AvgError.dirNotFound, [])
  else if (file_list fs).length = 0 then (Except.error AvgError.noSupportedFiles, [])
  else
    let st := runLoop resize fs
    if st.count = 0 then (Except.error AvgError.noValidImages, [])
    else
      let target := st.target_size.getD (0, 0)
      let average_array := (st.sum_array.getD []).map (fun s => avgSample s st.count)
      let result_img : RGBImage := ⟨target.1, target.2, average_array⟩
      let d := dirname output_path
      if d = "" then (Except.error AvgError.outputDirCreateFailed, [])
      else (Except.ok ⟨st.count, st.resize_count, target, st.errors⟩,
        [FsEffect.makedirs d, FsEffect.writeImage output_path result_img])

/-- Specification view: the rasters decoded successfully, in processing
order. -/
def decodedRasters (fs : FS) : List RGBImage :=
  (sorted_file_list fs).filterMap (decodeByName fs)

/-- Conforming one raster to the reference size: resample exactly when
the dimensions differ. -/
def conformToTarget (resize : RGBImage → Nat × Nat → RGBImage)
    (t : Nat × Nat) (i : RGBImage) : RGBImage :=
  if i.size = t then i else resize i t

/-- Specification view: the rasters that are accumulated, i.e. every
successfully decoded raster conformed to the reference size established
by the first one. -/
def processedRasters (resize : RGBImage → Nat × Nat → RGBImage)
    (fs : FS) : List RGBImage :=
  match decodedRasters fs with
  | [] => []
  | a :: rest => a :: rest.map (conformToTarget resize a.size)

/-- Element-wise sum of the sample grids of a list of rasters, starting
from a zero buffer of `len` cells. -/
def sumRasters (len : Nat) (l : List RGBImage) : List Nat :=
  l.foldl addSamples (List.replicate len 0)

/-! ## Arithmetic of the final conversion -/

/-- The division-clip-cast pipeline of line 73 computes the truncated
average, capped at 255: natural-number division is exactly the floor of
the rational average. -/
theorem avgSample_min (s count : Nat) : avgSample s count = min 255 (s / count) := by
  have hq : (0 : ℚ) ≤ (s : ℚ) / (count : ℚ) :=
    div_nonneg (Nat.cast_nonneg s) (Nat.cast_nonneg count)
  unfold avgSample npClip0to255
  rw [max_eq_left hq]
  rcases le_total ((s : ℚ) / (count : ℚ)) 255 with h | h
  · rw [min_eq_left h, Int.floor_toNat, Nat.floor_div_eq_div]
    have h2 : s / count ≤ 255 := by
      have h3 := Nat.floor_le_floor (α := ℚ) h
      rwa [Nat.floor_div_eq_div, Nat.floor_ofNat] at h3
    rw [Nat.mod_eq_of_lt (Nat.lt_succ_of_le h2), min_eq_right h2]
  · rw [min_eq_right h]
    have h2 : 255 ≤ s / count := by
      have h3 := Nat.floor_le_floor (α := ℚ) h
      rwa [Nat.floor_div_eq_div, Nat.floor_ofNat] at h3
    have h4 : (255 : ℚ) = ((255 : ℕ) : ℚ) := by norm_num
    rw [h4, Int.floor_natCast]
    simp [min_eq_left h2]

/-! ## Sorting lemmas -/

theorem insertSorted_length (n : String) (l : List String) :
    (insertSorted n l).length = l.length + 1 := by
  induction l with
  | nil => rfl
  | cons m rest ih =>
    by_cases h : strLe n m = true <;> simp [insertSorted, h, ih]

theorem sortNames_length (l : List String) : (sortNames l).length = l.length := by
  induction l with
  | nil => rfl
  | cons n rest ih => simp [sortNames, insertSorted_length, ih]

theorem insertSorted_mem (x n : String) (l : List String) :
    x ∈ insertSorted n l ↔ x = n ∨ x ∈ l := by
  induction l with
  | nil => simp [insertSorted]
  | cons m rest ih =>
    by_cases h : strLe n m = true <;> simp [insertSorted, h, ih] <;> tauto

theorem sortNames_mem (x : String) (l : List String) :
    x ∈ sortNames l ↔ x ∈ l := by
  induction l with
  | nil => simp [sortNames]
  | cons n rest ih => simp [sortNames, insertSorted_mem, ih]

theorem sortNames_eq_nil (l : List String) : sortNames l = [] ↔ l = [] := by
  constructor
  · intro h
    have h2 := sortNames_length l
    rw [h] at h2
    exact List.length_eq_zero.mp h2.symm
  · intro h
    rw [h]
    rfl

theorem sorted_file_list_length (fs : FS) :
    (sorted_file_list fs).length = (file_list fs).length :=
  sortNames_length (file_list fs)

/-! ## Loop characterization -/

/-- A failed decode only appends the file name to the error log. -/
theorem processFile_none (resize : RGBImage → Nat × Nat → RGBImage) (fs : FS)
    (sa : Option (List Nat)) (t : Option (Nat × Nat)) (c r : Nat)
    (errs : List String) (n : String) (h : decodeByName fs n = none) :
    processFile resize fs ⟨sa, t, c, r, errs⟩ n = ⟨sa, t, c, r, errs ++ [n]⟩ := by
  unfold processFile
  rw [h]

/-- A successful decode in an established state (target size and
accumulator present) conforms the raster to the target, accumulates it,
counts it, and counts a resize event exactly when the size differed. -/
theorem processFile_some (resize : RGBImage → Nat × Nat → RGBImage) (fs : FS)
    (a : List Nat) (t : Nat × Nat) (c r : Nat) (errs : List String)
    (n : String) (rgb : RGBImage) (h : decodeByName fs n = some rgb) :
    processFile resize fs ⟨some a, some t, c, r, errs⟩ n =
      ⟨some (addSamples a (conformToTarget resize t rgb)), some t, c + 1,
        r + (if rgb.size = t then 0 else 1), errs⟩ := by
  unfold processFile conformToTarget
  rw [h]
  by_cases hs : rgb.size = t <;> simp [hs]

/-- A successful decode from the initial state establishes the target
size from the decoded raster, allocates the zero accumulator, and never
resizes the first raster. -/
theorem processFile_first (resize : RGBImage → Nat × Nat → RGBImage) (fs : FS)
    (c r : Nat) (errs : List String) (n : String) (rgb : RGBImage)
    (h : decodeByName fs n = some rgb) :
    processFile resize fs ⟨none, none, c, r, errs⟩ n =
      ⟨some (addSamples (List.replicate (rgb.size.1 * rgb.size.2 * 3) 0) rgb),
        some rgb.size, c + 1, r, errs⟩ := by
  unfold processFile
  rw [h]
  simp

/-- From an established state, the rest of the loop folds the conformed
decoded rasters into the accumulator, counts the successes, counts the
size mismatches as resize events, and logs the failures in order. -/
theorem foldl_established (resize : RGBImage → Nat × Nat → RGBImage) (fs : FS)
    (names : List String) : ∀ (a : List Nat) (t : Nat × Nat) (c r : Nat)
      (errs : List String),
    names.foldl (processFile resize fs) ⟨some a, some t, c, r, errs⟩ =
      ⟨some ((names.filterMap (decodeByName fs)).foldl
          (fun acc i => addSamples acc (conformToTarget resize t i)) a),
        some t,
        c + (names.filterMap (decodeByName fs)).length,
        r + ((names.filterMap (decodeByName fs)).filter
          (fun i => !(i.size == t))).length,
        errs ++ names.filter (fun n => (decodeByName fs n).isNone)⟩ := by
  induction names with
  | nil => intro a t c r errs; simp
  | cons n rest ih =>
    intro a t c r errs
    rw [List.foldl_cons]
    cases h : decodeByName fs n with
    | none =>
      rw [processFile_none resize fs _ _ _ _ _ n h, ih,
        List.filterMap_cons_none h, List.filter_cons]
      simp [h]
    | some rgb =>
      rw [processFile_some resize fs a t c r errs n rgb h, ih,
        List.filterMap_cons_some h]
      by_cases hs : rgb.size = t <;>
        simp [hs, List.foldl_cons, List.filter_cons, h] <;> omega

/-- When every file fails to decode, the loop only fills the error log. -/
theorem foldl_no_decode (resize : RGBImage → Nat × Nat → RGBImage) (fs : FS)
    (names : List String) (h : ∀ n ∈ names, decodeByName fs n = none) :
    ∀ (c r : Nat) (errs : List String),
    names.foldl (processFile resize fs) ⟨none, none, c, r, errs⟩ =
      ⟨none, none, c, r, errs ++ names⟩ := by
  induction names with
  | nil => intro c r errs; simp
  | cons n tl ih =>
    intro c r errs
    have hn : decodeByName fs n = none := h n (List.mem_cons_self n tl)
    rw [List.foldl_cons, processFile_none resize fs _ _ _ _ _ n hn,
      ih (fun m hm => h m (List.mem_cons_of_mem n hm))]
    simp

/-- From the initial state, the first successful decode establishes the
reference size and the zero accumulator, and the rest of the loop behaves
as `foldl_established`. -/
theorem foldl_first_decode (resize : RGBImage → Nat × Nat → RGBImage) (fs : FS)
    (names : List String) : ∀ (c r : Nat) (errs : List String)
      (a : RGBImage) (rest : List RGBImage),
    names.filterMap (decodeByName fs) = a :: rest →
    names.foldl (processFile resize fs) ⟨none, none, c, r, errs⟩ =
      ⟨some ((rest.map (conformToTarget resize a.size)).foldl addSamples
          (addSamples (List.replicate (a.size.1 * a.size.2 * 3) 0) a)),
        some a.size,
        c + 1 + rest.length,
        r + (rest.filter (fun i => !(i.size == a.size))).length,
        errs ++ names.filter (fun n => (decodeByName fs n).isNone)⟩ := by
  induction names with
  | nil => intro c r errs a rest h; simp at h
  | cons n tl ih =>
    intro c r errs a rest h
    rw [List.foldl_cons]
    cases hn : decodeByName fs n with
    | none =>
      rw [List.filterMap_cons_none hn] at h
      rw [processFile_none resize fs _ _ _ _ _ n hn, ih _ _ _ _ _ h, List.filter_cons]
      simp [hn]
    | some rgb =>
      rw [List.filterMap_cons_some hn] at h
      injection h with h1 h2
      subst h1
      subst h2
      rw [processFile_first resize fs _ _ _ n rgb hn, foldl_established, List.filter_cons]
      simp [hn, List.foldl_map]

/-- Final loop state when no file decodes. -/
theorem runLoop_no_decode (resize : RGBImage → Nat × Nat → RGBImage) (fs : FS)
    (h : decodedRasters fs = []) :
    runLoop resize fs = ⟨none, none, 0, 0, sorted_file_list fs⟩ := by
  unfold decodedRasters at h
  unfold runLoop initState
  rw [foldl_no_decode resize fs _ (List.filterMap_eq_nil_iff.mp h)]
  simp

/-- Final loop state when at least one file decodes: the accumulator is
the element-wise sum of the processed rasters, the target is the first
decoded raster's size, the count is the number of decoded rasters, the
resize count is the number of decoded rasters (after the first) whose
size differs from the reference, and the error log lists the failures in
processing order. -/
theorem runLoop_decoded (resize : RGBImage → Nat × Nat → RGBImage) (fs : FS)
    (a : RGBImage) (rest : List RGBImage) (h : decodedRasters fs = a :: rest) :
    runLoop resize fs =
      ⟨some (sumRasters (a.size.1 * a.size.2 * 3) (processedRasters resize fs)),
        some a.size, rest.length + 1,
        (rest.filter (fun i => !(i.size == a.size))).length,
        (sorted_file_list fs).filter (fun n => (decodeByName fs n).isNone)⟩ := by
  have h' := h
  unfold decodedRasters at h'
  unfold runLoop initState
  rw [foldl_first_decode resize fs _ 0 0 [] a rest h']
  unfold processedRasters sumRasters
  rw [h, List.foldl_cons]
  simp
  omega

/-- Success count of the loop: the number of successfully decoded
rasters. -/
theorem runLoop_count (resize : RGBImage → Nat × Nat → RGBImage) (fs : FS) :
    (runLoop resize fs).count = (decodedRasters fs).length := by
  cases h : decodedRasters fs with
  | nil => rw [runLoop_no_decode resize fs h]; rfl
  | cons a rest => rw [runLoop_decoded resize fs a rest h]; simp

/-- Error log of the loop: exactly the matched files whose decode
failed, in processing order. -/
theorem runLoop_errors (resize : RGBImage → Nat × Nat → RGBImage) (fs : FS) :
    (runLoop resize fs).errors
      = (sorted_file_list fs).filter (fun n => (decodeByName fs n).isNone) := by
  cases h : decodedRasters fs with
  | nil =>
    rw [runLoop_no_decode resize fs h]
    have h' := h
    unfold decodedRasters at h'
    have hall : ∀ n ∈ sorted_file_list fs, (decodeByName fs n).isNone = true := by
      intro n hn
      rw [List.filterMap_eq_nil_iff.mp h' n hn]
      rfl
    exact (List.filter_eq_self.mpr hall).symm
  | cons a rest => rw [runLoop_decoded resize fs a rest h]

/-- Successes plus failures cover the input list exactly once each. -/
theorem length_filterMap_add_filter_none (f : String → Option RGBImage)
    (l : List String) :
    (l.filterMap f).length + (l.filter (fun x => (f x).isNone)).length = l.length := by
  induction l with
  | nil => rfl
  | cons a as ih =>
    cases h : f a <;> simp [List.filterMap_cons, h, List.filter_cons] <;> omega

/-- If something decoded, the extension filter was non-empty. -/
theorem file_list_ne_nil_of_decoded (fs : FS) (a : RGBImage) (rest : List RGBImage)
    (h : decodedRasters fs = a :: rest) : (file_list fs).length ≠ 0 := by
  intro hlen
  have h0 : file_list fs = [] := List.length_eq_zero.mp hlen
  have hs : sorted_file_list fs = [] := by
    unfold sorted_file_list
    rw [h0]
    rfl
  unfold decodedRasters at h
  rw [hs] at h
  simp at h

/-- Line 17: a missing input directory raises before anything else. -/
theorem compute_dirNotFound (resize : RGBImage → Nat × Nat → RGBImage) (fs : FS)
    (out : String) (h : fs.isdir = false) :
    compute_average_image resize fs out = (Except.error AvgError.dirNotFound, []) := by
  simp [compute_average_image, h]

/-- Line 26: an empty extension filter raises before the loop. -/
theorem compute_noSupportedFiles (resize : RGBImage → Nat × Nat → RGBImage) (fs : FS)
    (out : String) (h1 : fs.isdir = true) (h2 : (file_list fs).length = 0) :
    compute_average_image resize fs out = (Except.error AvgError.noSupportedFiles, []) := by
  simp [compute_average_image, h1, h2]

/-- Line 69: a zero success count raises after the loop. -/
theorem compute_noValidImages (resize : RGBImage → Nat × Nat → RGBImage) (fs : FS)
    (out : String) (h1 : fs.isdir = true) (h2 : (file_list fs).length ≠ 0)
    (h3 : decodedRasters fs = []) :
    compute_average_image resize fs out = (Except.error AvgError.noValidImages, []) := by
  have hc : (runLoop resize fs).count = 0 := by
    rw [runLoop_count, h3]
    rfl
  simp [compute_average_image, h1, h2, hc]

/-- Line 76: with a bare output filename, `os.path.dirname` is empty and
`os.makedirs("")` raises even after successful processing. -/
theorem compute_emptyDirname (resize : RGBImage → Nat × Nat → RGBImage) (fs : FS)
    (out : String) (a : RGBImage) (rest : List RGBImage) (h1 : fs.isdir = true)
    (hd : decodedRasters fs = a :: rest) (h4 : dirname out = "") :
    compute_average_image resize fs out
      = (Except.error AvgError.outputDirCreateFailed, []) := by
  have h2 := file_list_ne_nil_of_decoded fs a rest hd
  simp [compute_average_image, h1, h2, runLoop_decoded resize fs a rest hd, h4]

/-- The full value of a successful run. -/
theorem compute_of_decoded (resize : RGBImage → Nat × Nat → RGBImage) (fs : FS)
    (out : String) (a : RGBImage) (rest : List RGBImage)
    (h1 : fs.isdir = true) (hd : decodedRasters fs = a :: rest)
    (hdir : dirname out ≠ "") :
    compute_average_image resize fs out =
      (Except.ok ⟨rest.length + 1,
          (rest.filter (fun i => !(i.size == a.size))).length,
          a.size,
          (sorted_file_list fs).filter (fun n => (decodeByName fs n).isNone)⟩,
        [FsEffect.makedirs (dirname out),
          FsEffect.writeImage out ⟨a.width, a.height,
            (sumRasters (a.width * a.height * 3) (processedRasters resize fs)).map
              (fun s => avgSample s (rest.length + 1))⟩]) := by
  have h2 := file_list_ne_nil_of_decoded fs a rest hd
  simp [compute_average_image, h1, h2, runLoop_decoded resize fs a rest hd, hdir,
    RGBImage.size]

/-- A run can only succeed when the directory exists, the output path has
a directory component, and at least one file decoded. -/
theorem compute_ok_inv (resize : RGBImage → Nat × Nat → RGBImage) (fs : FS)
    (out : String) (rep : Report) (effs : List FsEffect)
    (h : compute_average_image resize fs out = (Except.ok rep, effs)) :
    fs.isdir = true ∧ dirname out ≠ "" ∧ ∃ a rest, decodedRasters fs = a :: rest := by
  have h1 : fs.isdir = true := by
    by_contra hc
    have hf : fs.isdir = false := by simpa using hc
    rw [compute_dirNotFound resize fs out hf] at h
    simp at h
  cases hd : decodedRasters fs with
  | nil =>
    by_cases h2 : (file_list fs).length = 0
    · rw [compute_noSupportedFiles resize fs out h1 h2] at h
      simp at h
    · rw [compute_noValidImages resize fs out h1 h2 hd] at h
      simp at h
  | cons a rest =>
    by_cases h4 : dirname out = ""
    · rw [compute_emptyDirname resize fs out a rest h1 hd h4] at h
      simp at h
    · exact ⟨h1, h4, a, rest, rfl⟩

/-- The report and effect list of any successful run, explicitly. -/
theorem compute_ok_eq (resize : RGBImage → Nat × Nat → RGBImage) (fs : FS)
    (out : String) (rep : Report) (effs : List FsEffect)
    (h : compute_average_image resize fs out = (Except.ok rep, effs)) :
    ∃ a rest, decodedRasters fs = a :: rest ∧
      rep = ⟨rest.length + 1, (rest.filter (fun i => !(i.size == a.size))).length,
        a.size, (sorted_file_list fs).filter (fun n => (decodeByName fs n).isNone)⟩ ∧
      effs = [FsEffect.makedirs (dirname out),
        FsEffect.writeImage out ⟨a.width, a.height,
          (sumRasters (a.width * a.height * 3) (processedRasters resize fs)).map
            (fun s => avgSample s (rest.length + 1))⟩] := by
  obtain ⟨h1, h4, a, rest, hd⟩ := compute_ok_inv resize fs out rep effs h
  rw [compute_of_decoded resize fs out a rest h1 hd h4] at h
  simp only [Prod.mk.injEq, Except.ok.injEq] at h
  exact ⟨a, rest, hd, h.1.symm, h.2.symm⟩

/-! ## Concrete test data -/

/-- A decoded 1×1 RGB test image. -/
def img1 : RGBImage := ⟨1, 1, [10, 20, 30]⟩

/-- A decoded 2×1 RGB test image. -/
def imgWide : RGBImage := ⟨2, 1, [1, 2, 3, 4, 5, 6]⟩

/-- A concrete resampler for witness runs: a zero raster of the target
size (no claim depends on resampled pixel values). -/
def resizeZero : RGBImage → Nat × Nat → RGBImage :=
  fun _ t => ⟨t.1, t.2, List.replicate (t.1 * t.2 * 3) 0⟩

/-- One decodable image file. -/
def fsSingle : FS := ⟨true, [⟨"a.png", EntryKind.regular, some img1⟩]⟩

/-- Three decodable image files plus two corrupt ones of a qualifying
extension. -/
def fsMixed : FS := ⟨true,
  [⟨"a.png", EntryKind.regular, some img1⟩,
   ⟨"b.png", EntryKind.regular, some img1⟩,
   ⟨"c.png", EntryKind.regular, some img1⟩,
   ⟨"d.png", EntryKind.regular, none⟩,
   ⟨"e.png", EntryKind.regular, none⟩]⟩

/-- Two decodable images of different sizes. -/
def fsTwoSizes : FS := ⟨true,
  [⟨"a.png", EntryKind.regular, some img1⟩,
   ⟨"b.png", EntryKind.regular, some imgWide⟩]⟩

/-- Two identical copies of the same image. -/
def fsCopies : FS := ⟨true,
  [⟨"a.png", EntryKind.regular, some img1⟩,
   ⟨"b.png", EntryKind.regular, some img1⟩]⟩

/-- One decodable image plus one corrupt file. -/
def fsSingleExtra : FS := ⟨true,
  [⟨"a.png", EntryKind.regular, some img1⟩,
   ⟨"z.png", EntryKind.regular, none⟩]⟩

/-- A subdirectory whose name matches the extension allow-list. -/
def fsSubdir : FS := ⟨true, [⟨"sub.png", EntryKind.directory, none⟩]⟩

/-- A missing input directory. -/
def fsMissing : FS := ⟨false, []⟩

/-! ## Evaluated runs on the test data -/

theorem fsSingle_run : compute_average_image resizeZero fsSingle "o/avg.png" =
    (Except.ok ⟨1, 0, (1, 1), []⟩,
      [FsEffect.makedirs "o", FsEffect.writeImage "o/avg.png" ⟨1, 1, [10, 20, 30]⟩]) := by
  have h1 : compute_average_image resizeZero fsSingle "o/avg.png" =
      (Except.ok ⟨1, 0, (1, 1), []⟩,
        [FsEffect.makedirs "o",
          FsEffect.writeImage "o/avg.png"
            ⟨1, 1, [avgSample 10 1, avgSample 20 1, avgSample 30 1]⟩]) := rfl
  rw [h1, avgSample_min 10 1, avgSample_min 20 1, avgSample_min 30 1]
  norm_num

theorem fsMixed_run : compute_average_image resizeZero fsMixed "o/avg.png" =
    (Except.ok ⟨3, 0, (1, 1), ["d.png", "e.png"]⟩,
      [FsEffect.makedirs "o", FsEffect.writeImage "o/avg.png" ⟨1, 1, [10, 20, 30]⟩]) := by
  have h1 : compute_average_image resizeZero fsMixed "o/avg.png" =
      (Except.ok ⟨3, 0, (1, 1), ["d.png", "e.png"]⟩,
        [FsEffect.makedirs "o",
          FsEffect.writeImage "o/avg.png"
            ⟨1, 1, [avgSample 30 3, avgSample 60 3, avgSample 90 3]⟩]) := rfl
  rw [h1, avgSample_min 30 3, avgSample_min 60 3, avgSample_min 90 3]
  norm_num

theorem fsTwoSizes_run : compute_average_image resizeZero fsTwoSizes "o/avg.png" =
    (Except.ok ⟨2, 1, (1, 1), []⟩,
      [FsEffect.makedirs "o", FsEffect.writeImage "o/avg.png" ⟨1, 1, [5, 10, 15]⟩]) := by
  have h1 : compute_average_image resizeZero fsTwoSizes "o/avg.png" =
      (Except.ok ⟨2, 1, (1, 1), []⟩,
        [FsEffect.makedirs "o",
          FsEffect.writeImage "o/avg.png"
            ⟨1, 1, [avgSample 10 2, avgSample 20 2, avgSample 30 2]⟩]) := rfl
  rw [h1, avgSample_min 10 2, avgSample_min 20 2, avgSample_min 30 2]
  norm_num

theorem fsCopies_run : compute_average_image resizeZero fsCopies "o/avg.png" =
    (Except.ok ⟨2, 0, (1, 1), []⟩,
      [FsEffect.makedirs "o", FsEffect.writeImage "o/avg.png" ⟨1, 1, [10, 20, 30]⟩]) := by
  have h1 : compute_average_image resizeZero fsCopies "o/avg.png" =
      (Except.ok ⟨2, 0, (1, 1), []⟩,
        [FsEffect.makedirs "o",
          FsEffect.writeImage "o/avg.png"
            ⟨1, 1, [avgSample 20 2, avgSample 40 2, avgSample 60 2]⟩]) := rfl
  rw [h1, avgSample_min 20 2, avgSample_min 40 2, avgSample_min 60 2]
  norm_num

theorem fsSingleExtra_run : compute_average_image resizeZero fsSingleExtra "o/avg.png" =
    (Except.ok ⟨1, 0, (1, 1), ["z.png"]⟩,
      [FsEffect.makedirs "o", FsEffect.writeImage "o/avg.png" ⟨1, 1, [10, 20, 30]⟩]) := by
  have h1 : compute_average_image resizeZero fsSingleExtra "o/avg.png" =
      (Except.ok ⟨1, 0, (1, 1), ["z.png"]⟩,
        [FsEffect.makedirs "o",
          FsEffect.writeImage "o/avg.png"
            ⟨1, 1, [avgSample 10 1, avgSample 20 1, avgSample 30 1]⟩]) := rfl
  rw [h1, avgSample_min 10 1, avgSample_min 20 1, avgSample_min 30 1]
  norm_num

theorem fsSingle_bare_run : compute_average_image resizeZero fsSingle "avg.png" =
    (Except.error AvgError.outputDirCreateFailed, []) := rfl

theorem fsMissing_run : compute_average_image resizeZero fsMissing "o/avg.png" =
    (Except.error AvgError.dirNotFound, []) := rfl

/-! ## Auxiliary list lemmas -/

/-- Adding a raster into a matching zero buffer yields its samples. -/
theorem zipWith_add_replicate_zero (l : List Nat) :
    (List.replicate l.length 0).zipWith (· + ·) l = l := by
  induction l with
  | nil => rfl
  | cons x xs ih => simp [List.replicate_succ, ih]

/-- Element-wise combination with a matching zero buffer is a map. -/
theorem zipWith_replicate_zero_map (f : Nat → Nat → Nat) (t : List Nat) :
    (List.replicate t.length 0).zipWith f t = t.map (f 0) := by
  induction t with
  | nil => rfl
  | cons x xs ih => simp [List.replicate_succ, ih]

/-- Combining with `t` once more after an element-wise addition of `t`
bumps the multiplier. -/
theorem zipWith_add_step (g : Nat) : ∀ s t : List Nat,
    (s.zipWith (· + ·) t).zipWith (fun a b => a + g * b) t
      = s.zipWith (fun a b => a + (g + 1) * b) t := by
  intro s
  induction s with
  | nil => intro t; rfl
  | cons x xs ih =>
    intro t
    cases t with
    | nil => rfl
    | cons y ys =>
      simp only [List.zipWith_cons_cons, ih]
      congr 1
      ring

/-- Zipping with a function that ignores the right list keeps the left
list, at equal length. -/
theorem zipWith_left_id : ∀ s t : List Nat, s.length = t.length →
    s.zipWith (fun a _ => a) t = s := by
  intro s
  induction s with
  | nil => intro t h; rfl
  | cons x xs ih =>
    intro t h
    cases t with
    | nil => simp at h
    | cons y ys => rw [List.zipWith_cons_cons, ih ys (by simpa using h)]

/-- Multiplying by zero and adding keeps the left list, at equal length. -/
theorem zipWith_add_zero_mul (s t : List Nat) (h : s.length = t.length) :
    s.zipWith (fun a b => a + 0 * b) t = s := by
  have hf : (fun (a b : Nat) => a + 0 * b) = fun (a : Nat) (_ : Nat) => a := by
    funext a b
    ring
  rw [hf]
  exact zipWith_left_id s t h

/-- Folding `k` copies of the same raster into a matching accumulator
adds `k` times each sample. -/
theorem foldl_addSamples_replicate (img : RGBImage) : ∀ (k : Nat) (s : List Nat),
    s.length = img.samples.length →
    (List.replicate k img).foldl addSamples s
      = s.zipWith (fun a b => a + k * b) img.samples := by
  intro k
  induction k with
  | zero =>
    intro s h
    simpa using (zipWith_add_zero_mul s img.samples h).symm
  | succ g ih =>
    intro s h
    rw [List.replicate_succ, List.foldl_cons]
    have hlen : (addSamples s img).length = img.samples.length := by
      unfold addSamples
      rw [List.length_zipWith, h, Nat.min_self]
    rw [ih (addSamples s img) hlen]
    exact zipWith_add_step g s img.samples

/-- A `filterMap` that always succeeds with the same value is a
`replicate`. -/
theorem filterMap_const_some (f : String → Option RGBImage) (c : RGBImage) :
    ∀ l : List String, (∀ x ∈ l, f x = some c) →
    l.filterMap f = List.replicate l.length c := by
  intro l
  induction l with
  | nil => intro h; rfl
  | cons x xs ih =>
    intro h
    rw [List.filterMap_cons_some (h x (List.mem_cons_self x xs)),
      ih (fun y hy => h y (List.mem_cons_of_mem x hy)), List.length_cons,
      List.replicate_succ]

/-- No raster decodes exactly when every matched file fails. -/
theorem decodedRasters_eq_nil_iff (fs : FS) :
    decodedRasters fs = [] ↔ ∀ n ∈ file_list fs, decodeByName fs n = none := by
  unfold decodedRasters sorted_file_list
  rw [List.filterMap_eq_nil_iff]
  constructor
  · intro h n hn
    exact h n ((sortNames_mem n (file_list fs)).mpr hn)
  · intro h n hn
    exact h n ((sortNames_mem n (file_list fs)).mp hn)

/-! ## Claim theorems -/

/-- C9: the final conversion of the averaged buffer to 8-bit samples
truncates toward zero (floor on the non-negative clipped value) rather
than rounding to nearest: for a positive success count the written sample
is the integer part of the clipped average — `Nat` division — so an
average of 0.9 yields sample 0 (see the witness). -/
theorem final_conversion_truncates (s count : Nat) (h : count ≠ 0) :
    avgSample s count = min 255 (s / count) :=
  avgSample_min s count

theorem final_conversion_truncates_witness :
    (10 : Nat) ≠ 0 ∧ avgSample 9 10 = min 255 (9 / 10) ∧ avgSample 9 10 = 0 :=
  ⟨by decide, final_conversion_truncates 9 10 (by decide),
    (final_conversion_truncates 9 10 (by decide)).trans (by omega)⟩

/-- C10: whenever the run raises a fatal error — the input directory is
missing, no file matches the extension filter, no image decodes, or the
output dirname is empty — no filesystem write has happened: no output
file and no directory.  All writes sit after the success-count check. -/
theorem no_writes_on_fatal_error (resize : RGBImage → Nat × Nat → RGBImage)
    (fs : FS) (out : String) (e : AvgError)
    (h : (compute_average_image resize fs out).fst = Except.error e) :
    (compute_average_image resize fs out).snd = [] := by
  by_cases h1 : fs.isdir = true
  · cases hd : decodedRasters fs with
    | nil =>
      by_cases h2 : (file_list fs).length = 0
      · rw [compute_noSupportedFiles resize fs out h1 h2]
      · rw [compute_noValidImages resize fs out h1 h2 hd]
    | cons a rest =>
      by_cases h4 : dirname out = ""
      · rw [compute_emptyDirname resize fs out a rest h1 hd h4]
      · rw [compute_of_decoded resize fs out a rest h1 hd h4] at h
        simp at h
  · have hf : fs.isdir = false := by simpa using h1
    rw [compute_dirNotFound resize fs out hf]

theorem no_writes_on_fatal_error_witness :
    (compute_average_image resizeZero fsMissing "o/avg.png").fst
      = Except.error AvgError.dirNotFound ∧
    (compute_average_image resizeZero fsMissing "o/avg.png").snd = [] :=
  ⟨rfl, no_writes_on_fatal_error resizeZero fsMissing "o/avg.png" AvgError.dirNotFound rfl⟩

/-- C4 counterexample: the filter of lines 22-24 tests only the name, so
a non-regular entry (here a subdirectory named `sub.png`) is selected
into the set of files to process, contradicting the claim that
non-regular entries are never selected. -/
theorem nonregular_entry_selected :
    (⟨"sub.png", EntryKind.directory, none⟩ : DirEntry) ∈ fsSubdir.entries ∧
    (⟨"sub.png", EntryKind.directory, none⟩ : DirEntry).kind ≠ EntryKind.regular ∧
    "sub.png" ∈ file_list fsSubdir := by
  decide

/-- C4 amended: a directory entry is included in the set of files to
process iff its name ends, case-insensitively, in one of
`.png, .jpg, .jpeg, .tiff, .bmp` — regardless of whether it is a regular
file (a selected non-regular entry later fails per-file when opened).
Subdirectories are never traversed: only the names of the direct
`os.listdir` entries can be selected. -/
theorem file_list_mem_iff (fs : FS) (n : String) :
    n ∈ file_list fs ↔ n ∈ fs.entries.map DirEntry.name ∧ matchesExtensions n = true := by
  unfold file_list
  exact List.mem_filter

/-- C3: after the loop, every matched file has contributed to exactly one
tally — the success count counts exactly the files that decoded (their
pixels entering the accumulator once each), the error log holds exactly
one entry for each file that failed, each iterated file lands in exactly
one of the two, and count plus error-log length equals the number of
matched files.  Concretely, 3 valid plus 2 corrupt files yield count 3,
error-log length 2 and a valid output image. -/
theorem counted_or_logged_exactly_once :
    (∀ (resize : RGBImage → Nat × Nat → RGBImage) (fs : FS),
      (runLoop resize fs).count
          = ((sorted_file_list fs).filterMap (decodeByName fs)).length ∧
      (runLoop resize fs).errors
          = (sorted_file_list fs).filter (fun n => (decodeByName fs n).isNone) ∧
      (runLoop resize fs).count + (runLoop resize fs).errors.length
          = (file_list fs).length ∧
      ∀ n ∈ sorted_file_list fs,
        ((decodeByName fs n).isSome ∧ n ∉ (runLoop resize fs).errors) ∨
        ((decodeByName fs n).isNone ∧ n ∈ (runLoop resize fs).errors)) ∧
    ((runLoop resizeZero fsMixed).count = 3 ∧
      (runLoop resizeZero fsMixed).errors.length = 2 ∧
      compute_average_image resizeZero fsMixed "o/avg.png" =
        (Except.ok ⟨3, 0, (1, 1), ["d.png", "e.png"]⟩,
          [FsEffect.makedirs "o", FsEffect.writeImage "o/avg.png" ⟨1, 1, [10, 20, 30]⟩])) := by
  constructor
  · intro resize fs
    refine ⟨runLoop_count resize fs, runLoop_errors resize fs, ?_, ?_⟩
    · rw [runLoop_count, runLoop_errors]
      unfold decodedRasters
      rw [← sorted_file_list_length fs]
      exact length_filterMap_add_filter_none (decodeByName fs) (sorted_file_list fs)
    · intro n hn
      rw [runLoop_errors]
      cases hdec : decodeByName fs n with
      | some rgb =>
        left
        refine ⟨by simp [hdec], ?_⟩
        intro hmem
        have := (List.mem_filter.mp hmem).2
        rw [hdec] at this
        simp at this
      | none =>
        right
        exact ⟨by simp [hdec], List.mem_filter.mpr ⟨hn, by simp [hdec]⟩⟩
  · exact ⟨by decide, by decide, fsMixed_run⟩

/-- C1: every run that completes without raising writes the raster whose
samples are the element-wise sum of the samples of every successfully
processed image — each decoded, RGB-converted, and conformed to the
reference size when its dimensions differ — divided by the success count,
clipped to [0, 255] and cast to 8-bit, where the success count is the
number of processed images.  The accumulator models the float64 buffer,
which is exact on these integer sums. -/
theorem output_is_clipped_truncated_average
    (resize : RGBImage → Nat × Nat → RGBImage) (fs : FS) (out : String)
    (rep : Report) (effs : List FsEffect)
    (h : compute_average_image resize fs out = (Except.ok rep, effs)) :
    ∃ a rest, decodedRasters fs = a :: rest ∧
      rep.count = (processedRasters resize fs).length ∧
      FsEffect.writeImage out
        ⟨a.width, a.height,
          (sumRasters (a.width * a.height * 3) (processedRasters resize fs)).map
            (fun s => avgSample s rep.count)⟩ ∈ effs := by
  obtain ⟨a, rest, hd, hr, he⟩ := compute_ok_eq resize fs out rep effs h
  have hcount : rep.count = rest.length + 1 := by rw [hr]
  refine ⟨a, rest, hd, ?_, ?_⟩
  · rw [hcount]
    unfold processedRasters
    rw [hd]
    simp
  · rw [he, hcount]
    simp

theorem output_is_clipped_truncated_average_witness :
    ∃ a rest, decodedRasters fsSingle = a :: rest ∧
      (⟨1, 0, (1, 1), []⟩ : Report).count = (processedRasters resizeZero fsSingle).length ∧
      FsEffect.writeImage "o/avg.png"
        ⟨a.width, a.height,
          (sumRasters (a.width * a.height * 3) (processedRasters resizeZero fsSingle)).map
            (fun s => avgSample s (⟨1, 0, (1, 1), []⟩ : Report).count)⟩ ∈
        [FsEffect.makedirs "o", FsEffect.writeImage "o/avg.png" ⟨1, 1, [10, 20, 30]⟩] :=
  output_is_clipped_truncated_average resizeZero fsSingle "o/avg.png" _ _ fsSingle_run

/-- C5 counterexample: a run over a valid input set that reaches the
output-writing phase with a bare output filename fails and writes
nothing, although the parent of the output path (the current directory)
exists: `os.path.dirname("avg.png")` is empty and `os.makedirs("")`
raises `FileNotFoundError`. -/
theorem bare_output_filename_fails :
    fsSingle.isdir = true ∧ decodedRasters fsSingle = [img1] ∧
    dirname "avg.png" = "" ∧
    compute_average_image resizeZero fsSingle "avg.png"
      = (Except.error AvgError.outputDirCreateFailed, []) :=
  ⟨rfl, by decide, by decide, fsSingle_bare_run⟩

/-- C5 amended: for every run that reaches the output-writing phase, if
`output_path` contains a directory component the parent directory is
created (recursively, before encoding) and the run does not fail because
it was missing; but if `output_path` is a bare filename with no directory
component, the directory-creation step itself raises and nothing is
written. -/
theorem parent_dir_created_when_dirname_nonempty
    (resize : RGBImage → Nat × Nat → RGBImage) (fs : FS) (out : String)
    (a : RGBImage) (rest : List RGBImage)
    (h1 : fs.isdir = true) (hd : decodedRasters fs = a :: rest) :
    (dirname out ≠ "" →
      ∃ rep img, compute_average_image resize fs out =
        (Except.ok rep,
          [FsEffect.makedirs (dirname out), FsEffect.writeImage out img])) ∧
    (dirname out = "" →
      compute_average_image resize fs out
        = (Except.error AvgError.outputDirCreateFailed, [])) := by
  constructor
  · intro h4
    exact ⟨_, _, compute_of_decoded resize fs out a rest h1 hd h4⟩
  · intro h4
    exact compute_emptyDirname resize fs out a rest h1 hd h4

theorem parent_dir_created_when_dirname_nonempty_witness :
    (dirname "o/avg.png" ≠ "" →
      ∃ rep img, compute_average_image resizeZero fsSingle "o/avg.png" =
        (Except.ok rep,
          [FsEffect.makedirs (dirname "o/avg.png"),
            FsEffect.writeImage "o/avg.png" img])) ∧
    (dirname "o/avg.png" = "" →
      compute_average_image resizeZero fsSingle "o/avg.png"
        = (Except.error AvgError.outputDirCreateFailed, [])) :=
  parent_dir_created_when_dirname_nonempty resizeZero fsSingle "o/avg.png" img1 []
    rfl (by decide)

/-- C2 counterexample: a fourth whole-run fatal case exists beyond the
three claimed ones.  On a valid input directory with a matching,
decodable file (so none of the three claimed conditions holds), the run
still raises — at output-directory creation — when `output_path` has no
directory component. -/
theorem fatal_error_beyond_the_three :
    fsSingle.isdir = true ∧ (file_list fsSingle).length ≠ 0 ∧
    (runLoop resizeZero fsSingle).count ≠ 0 ∧
    compute_average_image resizeZero fsSingle "avg.png"
      = (Except.error AvgError.outputDirCreateFailed, []) :=
  ⟨rfl, by decide, by decide, fsSingle_bare_run⟩

/-- A successfully decoding matched file exists whenever the decoded list
is non-empty. -/
theorem exists_decode_of_cons (fs : FS) (a : RGBImage) (rest : List RGBImage)
    (h : decodedRasters fs = a :: rest) :
    ∃ n ∈ file_list fs, decodeByName fs n ≠ none := by
  by_contra hc
  push_neg at hc
  have h0 := (decodedRasters_eq_nil_iff fs).mpr hc
  rw [h] at h0
  cases h0

/-- C2 amended: when `output_path` contains a directory component the run
raises a fatal error in exactly the three claimed whole-run cases, with
the claimed timing (the first two before the loop, the third after it),
and per-file failures never abort the run — it succeeds whenever the
directory exists and any matched file decodes.  When `output_path` is a
bare filename a fourth fatal failure occurs at output-directory creation
even after successful processing. -/
theorem fatal_error_cases (resize : RGBImage → Nat × Nat → RGBImage)
    (fs : FS) (out : String) (hdir : dirname out ≠ "") :
    ((compute_average_image resize fs out).fst = Except.error AvgError.dirNotFound
      ↔ fs.isdir = false) ∧
    ((compute_average_image resize fs out).fst = Except.error AvgError.noSupportedFiles
      ↔ fs.isdir = true ∧ file_list fs = []) ∧
    ((compute_average_image resize fs out).fst = Except.error AvgError.noValidImages
      ↔ fs.isdir = true ∧ file_list fs ≠ [] ∧
        ∀ n ∈ file_list fs, decodeByName fs n = none) ∧
    ((∃ rep, (compute_average_image resize fs out).fst = Except.ok rep)
      ↔ fs.isdir = true ∧ ∃ n ∈ file_list fs, decodeByName fs n ≠ none) := by
  by_cases h1 : fs.isdir = true
  · by_cases h2 : file_list fs = []
    · have h2l : (file_list fs).length = 0 := by rw [h2]; rfl
      rw [compute_noSupportedFiles resize fs out h1 h2l]
      simp [h1, h2]
    · have h2l : (file_list fs).length ≠ 0 :=
        fun hl => h2 (List.length_eq_zero.mp hl)
      cases hd : decodedRasters fs with
      | nil =>
        rw [compute_noValidImages resize fs out h1 h2l hd]
        have hall := (decodedRasters_eq_nil_iff fs).mp hd
        refine ⟨by simp [h1], by simp [h2], ?_, ?_⟩
        · exact ⟨fun _ => ⟨h1, h2, hall⟩, fun _ => rfl⟩
        · constructor
          · rintro ⟨rep, hrep⟩
            simp at hrep
          · rintro ⟨-, n, hn, hne⟩
            exact absurd (hall n hn) hne
      | cons a rest =>
        rw [compute_of_decoded resize fs out a rest h1 hd hdir]
        have hnall : ¬ ∀ n ∈ file_list fs, decodeByName fs n = none := by
          intro hall
          have h0 := (decodedRasters_eq_nil_iff fs).mpr hall
          rw [hd] at h0
          cases h0
        refine ⟨by simp [h1], by simp [h2], ?_, ?_⟩
        · constructor
          · intro hfalse
            simp at hfalse
          · rintro ⟨-, -, hall⟩
            exact absurd hall hnall
        · exact ⟨fun _ => ⟨h1, exists_decode_of_cons fs a rest hd⟩,
            fun _ => ⟨_, rfl⟩⟩
  · have hf : fs.isdir = false := by simpa using h1
    rw [compute_dirNotFound resize fs out hf]
    simp [hf]

theorem fatal_error_cases_witness :
    dirname "o/avg.png" ≠ "" ∧
    ((((compute_average_image resizeZero fsSingle "o/avg.png").fst
        = Except.error AvgError.dirNotFound ↔ fsSingle.isdir = false) ∧
      (((compute_average_image resizeZero fsSingle "o/avg.png").fst
        = Except.error AvgError.noSupportedFiles
          ↔ fsSingle.isdir = true ∧ file_list fsSingle = []) ∧
      (((compute_average_image resizeZero fsSingle "o/avg.png").fst
        = Except.error AvgError.noValidImages
          ↔ fsSingle.isdir = true ∧ file_list fsSingle ≠ [] ∧
            ∀ n ∈ file_list fsSingle, decodeByName fsSingle n = none) ∧
      ((∃ rep, (compute_average_image resizeZero fsSingle "o/avg.png").fst
          = Except.ok rep)
        ↔ fsSingle.isdir = true ∧
          ∃ n ∈ file_list fsSingle, decodeByName fsSingle n ≠ none))))) :=
  ⟨by decide, fatal_error_cases resizeZero fsSingle "o/avg.png" (by decide)⟩

/-- C8: for every successful run, the reported resize count equals the
number of successfully decoded rasters whose decoded dimensions differ
from the reference size established by the first decoded raster; rasters
matching the reference size are never resampled (conforming them is the
identity), and the processed list resamples exactly the others. -/
theorem resize_count_counts_mismatches
    (resize : RGBImage → Nat × Nat → RGBImage) (fs : FS) (out : String)
    (rep : Report) (effs : List FsEffect) (a : RGBImage) (rest : List RGBImage)
    (h : compute_average_image resize fs out = (Except.ok rep, effs))
    (hd : decodedRasters fs = a :: rest) :
    rep.resize_count = (rest.filter (fun i => !(i.size == a.size))).length ∧
    (∀ i : RGBImage, i.size = a.size → conformToTarget resize a.size i = i) ∧
    processedRasters resize fs = a :: rest.map (conformToTarget resize a.size) := by
  obtain ⟨a', rest', hd', hr, he⟩ := compute_ok_eq resize fs out rep effs h
  rw [hd] at hd'
  injection hd' with e1 e2
  subst e1
  subst e2
  refine ⟨by rw [hr], ?_, ?_⟩
  · intro i hi
    unfold conformToTarget
    rw [if_pos hi]
  · unfold processedRasters
    rw [hd]

theorem resize_count_counts_mismatches_witness :
    (⟨2, 1, (1, 1), []⟩ : Report).resize_count
        = ([imgWide].filter (fun i => !(i.size == img1.size))).length ∧
    (∀ i : RGBImage, i.size = img1.size → conformToTarget resizeZero img1.size i = i) ∧
    processedRasters resizeZero fsTwoSizes
        = img1 :: [imgWide].map (conformToTarget resizeZero img1.size) :=
  resize_count_counts_mismatches resizeZero fsTwoSizes "o/avg.png" _ _ img1 [imgWide]
    fsTwoSizes_run (by decide)

/-- C6: if exactly one file decodes successfully (and no other file
contributes), the run writes that raster back unchanged — pixel for
pixel, after RGB conversion — and reports a resize count of zero. -/
theorem single_image_identity (resize : RGBImage → Nat × Nat → RGBImage)
    (fs : FS) (out : String) (a : RGBImage)
    (h1 : fs.isdir = true) (hd : decodedRasters fs = [a]) (hwf : a.wf)
    (h8 : ∀ s ∈ a.samples, s ≤ 255) (hdir : dirname out ≠ "") :
    ∃ rep : Report,
      compute_average_image resize fs out =
        (Except.ok rep,
          [FsEffect.makedirs (dirname out), FsEffect.writeImage out a]) ∧
      rep.count = 1 ∧ rep.resize_count = 0 := by
  have hc := compute_of_decoded resize fs out a [] h1 hd hdir
  simp only [List.length_nil, List.filter_nil, Nat.zero_add] at hc
  have hproc : processedRasters resize fs = [a] := by
    unfold processedRasters
    rw [hd]
    rfl
  have hsum : sumRasters (a.width * a.height * 3) (processedRasters resize fs)
      = a.samples := by
    rw [hproc]
    unfold sumRasters
    rw [List.foldl_cons, List.foldl_nil]
    unfold addSamples
    rw [← hwf]
    exact zipWith_add_replicate_zero a.samples
  rw [hsum] at hc
  have hmap : a.samples.map (fun s => avgSample s (0 + 1)) = a.samples := by
    calc a.samples.map (fun s => avgSample s (0 + 1))
        = a.samples.map id := List.map_congr_left (fun s hs => by
          rw [Nat.zero_add, avgSample_min, Nat.div_one]
          exact min_eq_right (h8 s hs))
      _ = a.samples := List.map_id a.samples
  rw [hmap] at hc
  exact ⟨_, hc, rfl, rfl⟩

theorem single_image_identity_witness :
    ∃ rep : Report,
      compute_average_image resizeZero fsSingleExtra "o/avg.png" =
        (Except.ok rep,
          [FsEffect.makedirs (dirname "o/avg.png"),
            FsEffect.writeImage "o/avg.png" img1]) ∧
      rep.count = 1 ∧ rep.resize_count = 0 :=
  single_image_identity resizeZero fsSingleExtra "o/avg.png" img1 rfl (by decide)
    rfl (by decide) (by decide)

/-- C7: for every N ≥ 1, averaging N identical copies of the same image
(all at the reference size) writes that image back exactly: each channel
sum is N times the sample, and dividing the exact sum by N returns the
sample with no drift (the integer sums are exact in the float64 model).
N is the number of directory entries, all copies of the same decodable
file. -/
theorem average_of_identical_copies (resize : RGBImage → Nat × Nat → RGBImage)
    (fs : FS) (out : String) (img : RGBImage)
    (h1 : fs.isdir = true) (hne : fs.entries ≠ [])
    (hcopies : ∀ e ∈ fs.entries, e.kind = EntryKind.regular ∧ e.image = some img ∧
      matchesExtensions e.name = true)
    (hwf : img.wf) (h8 : ∀ s ∈ img.samples, s ≤ 255) (hdir : dirname out ≠ "") :
    ∃ rep : Report,
      compute_average_image resize fs out =
        (Except.ok rep,
          [FsEffect.makedirs (dirname out), FsEffect.writeImage out img]) ∧
      rep.count = fs.entries.length ∧ rep.resize_count = 0 := by
  have hdec : ∀ n ∈ fs.entries.map DirEntry.name, decodeByName fs n = some img := by
    intro n hn
    unfold decodeByName
    cases hf : fs.entries.find? (fun e => e.name == n) with
    | none =>
      obtain ⟨e, he, hni⟩ := List.mem_map.mp hn
      have hno := List.find?_eq_none.mp hf e he
      rw [hni] at hno
      simp at hno
    | some e =>
      have hmem := List.mem_of_find?_eq_some hf
      obtain ⟨hk, hi, -⟩ := hcopies e hmem
      simp [DirEntry.decodeRGB, hk, hi]
  have hfl : file_list fs = fs.entries.map DirEntry.name := by
    unfold file_list
    apply List.filter_eq_self.mpr
    intro n hn
    obtain ⟨e, he, hni⟩ := List.mem_map.mp hn
    rw [← hni]
    exact (hcopies e he).2.2
  have hlen0 : fs.entries.length ≠ 0 := by
    intro h0
    exact hne (List.length_eq_zero.mp h0)
  obtain ⟨k, hk⟩ : ∃ k, fs.entries.length = k + 1 :=
    Nat.exists_eq_succ_of_ne_zero hlen0
  have hdr : decodedRasters fs = List.replicate (k + 1) img := by
    unfold decodedRasters sorted_file_list
    rw [hfl, filterMap_const_some (decodeByName fs) img _
      (fun n hn => hdec n ((sortNames_mem n _).mp hn)),
      sortNames_length, List.length_map, hk]
  have hd : decodedRasters fs = img :: List.replicate k img := by
    rw [hdr, List.replicate_succ]
  have hc := compute_of_decoded resize fs out img (List.replicate k img) h1 hd hdir
  have hfilt : (List.replicate k img).filter (fun i => !(i.size == img.size)) = [] := by
    apply List.filter_eq_nil_iff.mpr
    intro i hi
    rw [List.eq_of_mem_replicate hi]
    simp
  have hproc : processedRasters resize fs = List.replicate (k + 1) img := by
    unfold processedRasters
    rw [hd]
    show img :: (List.replicate k img).map (conformToTarget resize img.size)
        = List.replicate (k + 1) img
    have hm : (List.replicate k img).map (conformToTarget resize img.size)
        = List.replicate k img := by
      calc (List.replicate k img).map (conformToTarget resize img.size)
          = (List.replicate k img).map id := List.map_congr_left (fun i hi => by
            rw [List.eq_of_mem_replicate hi]
            unfold conformToTarget
            rw [if_pos rfl]
            rfl)
        _ = List.replicate k img := List.map_id _
    rw [hm, ← List.replicate_succ]
  have hsum : sumRasters (img.width * img.height * 3) (processedRasters resize fs)
      = img.samples.map (fun b => 0 + (k + 1) * b) := by
    rw [hproc]
    unfold sumRasters
    rw [foldl_addSamples_replicate img (k + 1) _
      (by rw [List.length_replicate]; exact hwf.symm), ← hwf]
    exact zipWith_replicate_zero_map (fun a b => a + (k + 1) * b) img.samples
  rw [hsum] at hc
  have hmap : (img.samples.map (fun b => 0 + (k + 1) * b)).map
      (fun s => avgSample s ((List.replicate k img).length + 1)) = img.samples := by
    rw [List.length_replicate, List.map_map]
    calc img.samples.map
          ((fun s => avgSample s (k + 1)) ∘ (fun b => 0 + (k + 1) * b))
        = img.samples.map id := List.map_congr_left (fun s hs => by
          show avgSample (0 + (k + 1) * s) (k + 1) = id s
          rw [Nat.zero_add, avgSample_min,
            Nat.mul_div_cancel_left s (Nat.succ_pos k)]
          exact min_eq_right (h8 s hs))
      _ = img.samples := List.map_id _
  rw [hmap] at hc
  refine ⟨_, hc, ?_, ?_⟩
  · show (List.replicate k img).length + 1 = fs.entries.length
    rw [List.length_replicate, hk]
  · show ((List.replicate k img).filter (fun i => !(i.size == img.size))).length = 0
    rw [hfilt]
    rfl

theorem average_of_identical_copies_witness :
    ∃ rep : Report,
      compute_average_image resizeZero fsCopies "o/avg.png" =
        (Except.ok rep,
          [FsEffect.makedirs (dirname "o/avg.png"),
            FsEffect.writeImage "o/avg.png" img1]) ∧
      rep.count = fsCopies.entries.length ∧ rep.resize_count = 0 :=
  average_of_identical_copies resizeZero fsCopies "o/avg.png" img1 rfl (by decide)
    (by decide) rfl (by decide) (by decide)
